import Mathlib

set_option maxHeartbeats 1000000

/- Verification development for the pkcs11-json generator (src/gen.py).

The program walks a libclang translation unit for a PKCS#11 header and emits a
JSON intermediate representation.  The embedding below models clang types by
the inductive CType, shaped by exactly the queries gen.py performs on a clang
Type object: kind, spelling, get_canonical, get_declaration (hash / spelling),
get_pointee, get_array_element_type, get_array_size, underlying_typedef_type.

Dictionary keys in gen.py are either str(decl.hash) (a cursor identity) or
str(hash(spelling)) (a Python string hash).  These two key spaces are modelled
by the two disjoint constructors of TypeId, i.e. hashing is modelled as
injective and the two key families as non-colliding (the spec itself flags
hash collisions as a separate latent risk, outside these claims).

The clang tree is parsed in C mode, so CursorKind.NAMESPACE children do not
occur; the translation unit is modelled as the flat list of its top-level
declarations (TopDecl), which is what both collection passes traverse. -/

inductive FundKind where
  | ulong
  | long
  | uchar
  | char_s
  | char_u
  | void
  | int
  | uint
  | short
  | ushort
deriving DecidableEq

structure DeclInfo where
  hash : Nat
  spelling : String
deriving DecidableEq

/- A clang type as queried by gen.py.
   typedefTy d c    : TypeKind.TYPEDEF; get_declaration yields the typedef decl
                      d (name d.spelling), get_canonical yields c.
   pointerTy p      : TypeKind.POINTER with pointee p.
   recordTy d       : TypeKind.RECORD; get_declaration yields the struct decl d
                      whose tag is d.spelling; clang spells the type
                      "struct " ++ tag.
   elaboratedTy c   : TypeKind.ELABORATED; get_canonical yields c and
                      get_declaration yields the declaration of c.
   arrayTy e n      : TypeKind.CONSTANTARRAY of element type e; clang's
                      get_array_size returns the declared element count n.
   fundTy k sp      : a fundamental scalar of TypeKind k with clang spelling sp.
   funcTy proto     : TypeKind.FUNCTIONPROTO (true) / FUNCTIONNOPROTO (false).
   otherTy sp       : any other TypeKind, with spelling sp. -/
inductive CType where
  | typedefTy (decl : DeclInfo) (canonical : CType)
  | pointerTy (pointee : CType)
  | recordTy (decl : DeclInfo)
  | elaboratedTy (canonical : CType)
  | arrayTy (elem : CType) (size : Nat)
  | fundTy (k : FundKind) (sp : String)
  | funcTy (proto : Bool)
  | otherTy (sp : String)
deriving DecidableEq

/- clang Type.spelling as observed by gen.py. -/
def CType.spelling : CType → String
  | .typedefTy d _ => d.spelling
  | .pointerTy p => p.spelling ++ " *"
  | .recordTy d => "struct " ++ d.spelling
  | .elaboratedTy c => c.spelling
  | .arrayTy e n => e.spelling ++ "[" ++ toString n ++ "]"
  | .fundTy _ sp => sp
  | .funcTy _ => "void ()"
  | .otherTy sp => sp

/- clang Type.get_canonical, as stored on the node. -/
def CType.getCanonical : CType → CType
  | .typedefTy _ c => c
  | .elaboratedTy c => c
  | t => t

/- clang Type.get_declaration; none models a NO_DECL_FOUND cursor. -/
def CType.getDeclOpt : CType → Option DeclInfo
  | .typedefTy d _ => some d
  | .recordTy d => some d
  | .elaboratedTy c => c.getDeclOpt
  | _ => none

/- Keys of the gen.py dictionaries: str(decl.hash) vs str(hash(spelling)). -/
inductive TypeId where
  | declId (h : Nat)
  | spellId (s : String)
deriving DecidableEq

/- Python dict lookup over the alias table.  The table is built by consing the
   most recent assignment at the head, so first match = last assignment, which
   is exactly dict overwrite semantics. -/
def aliasLookup (al : List (TypeId × String)) (q : TypeId) : Option String :=
  match al with
  | [] => none
  | (k, v) :: rest => if k = q then some v else aliasLookup rest q

/- Python str.startswith, i.e. String.startsWith, computed over the character
   list (the byte-position loop of String.substrEq is opaque to the kernel;
   on the character level the two agree). -/
def str_startsWith (s p : String) : Bool := List.isPrefixOf p.data s.data

/- Follows a chain of TYPEDEF nodes (each step is what get_canonical /
   underlying-type chasing in gen.py walks through) to its terminal type. -/
def typedefTerminal : CType → CType
  | .typedefTy _ c => typedefTerminal c
  | t => t

/- gen.py lines 380-387: the fundamental-kind checks that close
   Function._resolve_ffi_type after the typedef / pointer / elaborated cases:
   ULONG, LONG -> "ulong"; UCHAR, CHAR_U -> "uchar"; default "pointer". -/
def ffi_fundamental_check : CType → String
  | .fundTy .ulong _ => "ulong"
  | .fundTy .long _ => "ulong"
  | .fundTy .uchar _ => "uchar"
  | .fundTy .char_u _ => "uchar"
  | _ => "pointer"

/- gen.py lines 367-387, Function._resolve_ffi_type(typ):
   TYPEDEF -> recurse on get_canonical; POINTER -> "pointer";
   ELABORATED -> replace by get_canonical; then the fundamental checks,
   defaulting to "pointer" for everything else. -/
def Function_resolve_ffi_type : CType → String
  | .typedefTy _ c => Function_resolve_ffi_type c
  | .pointerTy _ => "pointer"
  | .elaboratedTy c => ffi_fundamental_check c
  | t => ffi_fundamental_check t

/- gen.py lines 59-63, Typedef._get_type_id(typ). -/
def Typedef_get_type_id (t : CType) : TypeId :=
  match t.getDeclOpt with
  | some d => TypeId.declId d.hash
  | none => TypeId.spellId t.spelling

/- gen.py lines 42-57, Typedef._resolve_underlying_ffi_type(typ).
   The self.types dict is populated (AST._collect_declarations line 506) only
   with Struct objects, which inherit Type.resolve_ffi_type and therefore
   raise NotImplementedError when called; so the dict is modelled by the list
   of its keys and a hit is modelled as that raised exception. -/
def Typedef_resolve_underlying_ffi_type (types : List TypeId) : CType → Except String String
  | .typedefTy _ c => Typedef_resolve_underlying_ffi_type types c
  | .pointerTy _ => Except.ok ("pointer")
  | .fundTy .ulong _ => Except.ok ("ulong")
  | .fundTy .long _ => Except.ok ("ulong")
  | .fundTy .uchar _ => Except.ok ("uchar")
  | .fundTy .char_s _ => Except.ok ("uchar")
  | .fundTy .char_u _ => Except.ok ("uchar")
  | t =>
    if Typedef_get_type_id t ∈ types then Except.error ("NotImplementedError")
    else Except.ok ("pointer")

/- gen.py lines 38-40, Typedef.resolve_ffi_type: applies the underlying
   resolver to cursor.underlying_typedef_type. -/
def Typedef_resolve_ffi_type (types : List TypeId) (underlying : CType) : Except String String :=
  Typedef_resolve_underlying_ffi_type types underlying

/- gen.py lines 141-147, FundamentalType.resolve_ffi_type. -/
def FundamentalType_resolve_ffi_type : CType → String
  | .fundTy .ulong _ => "ulong"
  | .fundTy .long _ => "ulong"
  | .fundTy .uchar _ => "uchar"
  | .fundTy .char_u _ => "uchar"
  | _ => "pointer"

/- gen.py lines 113-123, PointerType._get_type_string(typ). -/
def PointerType_get_type_string : CType → String
  | .typedefTy d _ => d.spelling
  | .fundTy .ulong _ => "long unsigned int"
  | .fundTy .long _ => "long unsigned int"
  | .fundTy .uchar _ => "unsigned char"
  | .fundTy .char_u _ => "unsigned char"
  | .fundTy .void _ => "void"
  | t => t.spelling

/- gen.py lines 81-111, PointerType._resolve_pointee. -/
def PointerType_resolve_pointee (al : List (TypeId × String)) : CType → String
  | .typedefTy d _ => d.spelling
  | .elaboratedTy c => (CType.elaboratedTy c).getCanonical.spelling
  | .recordTy d =>
    match aliasLookup al (TypeId.declId d.hash) with
    | some a => a
    | none => (CType.recordTy d).spelling
  | .arrayTy e _ => PointerType_get_type_string e
  | .funcTy _ => "void"
  | t => PointerType_get_type_string t

/- gen.py lines 72-79, PointerType.resolve: the constructor stores
   type_id = str(hash(str(pointee_type.spelling))) (line 70), looked up first;
   otherwise the resolved pointee plus " *". -/
def PointerType_resolve (al : List (TypeId × String)) (pointee : CType) : String :=
  match aliasLookup al (TypeId.spellId pointee.spelling) with
  | some a => a
  | none => PointerType_resolve_pointee al pointee ++ " *"

/- gen.py lines 175-183, ElaboratedType.resolve. -/
def ElaboratedType_resolve (al : List (TypeId × String)) (t : CType) : String :=
  match t.getCanonical with
  | .recordTy d =>
    match aliasLookup al (TypeId.declId d.hash) with
    | some a => a
    | none => (CType.recordTy d).spelling
  | c => c.spelling

/- clang Type.get_array_element_type; invalid type for a non-array. -/
def get_array_element_type : CType → CType
  | .arrayTy e _ => e
  | _ => .otherTy ""

/- clang Type.get_array_size: the declared element count; -1 for a non-array. -/
def get_array_size : CType → Int
  | .arrayTy _ n => (n : Int)
  | _ => -1

/- The element-spelling match shared by ArrayType.resolve (gen.py lines
   195-200) and the array arm of Field._get_type_spelling (lines 224-229). -/
def array_elem_spelling : CType → String
  | .typedefTy d _ => d.spelling
  | .fundTy .uchar _ => "unsigned char"
  | .fundTy .char_u _ => "unsigned char"
  | e => e.spelling

/- gen.py lines 191-202, ArrayType.resolve. -/
def ArrayType_resolve (t : CType) : String :=
  array_elem_spelling (get_array_element_type t) ++ "[" ++ toString (get_array_size t) ++ "]"

/- gen.py lines 217-268, Field._get_type_spelling.  For the RECORD /
   ELABORATED arm the code looks up str(decl.hash) of typ.get_declaration();
   when clang reports NO_DECL_FOUND the fresh junk hash of that cursor matches
   no alias entry, modelled by skipping the lookup. -/
def Field_get_type_spelling (al : List (TypeId × String)) (typ : CType) : String :=
  match typ with
  | .arrayTy e n => array_elem_spelling e ++ "[" ++ toString (n : Int) ++ "]"
  | .typedefTy d _ => d.spelling
  | .pointerTy p =>
    match p with
    | .typedefTy d _ => d.spelling ++ " *"
    | .fundTy .uchar _ => "unsigned char *"
    | .fundTy .char_u _ => "unsigned char *"
    | .fundTy .void _ => "void *"
    | _ => p.spelling ++ " *"
  | .recordTy d =>
    (match aliasLookup al (TypeId.declId d.hash) with
     | some a => a
     | none =>
       match (CType.recordTy d).getCanonical with
       | .recordTy d2 =>
         (match aliasLookup al (TypeId.declId d2.hash) with
          | some a => a
          | none => (CType.recordTy d).spelling)
       | _ => (CType.recordTy d).spelling)
  | .elaboratedTy c =>
    (match (CType.elaboratedTy c).getDeclOpt with
     | some d =>
       (match aliasLookup al (TypeId.declId d.hash) with
        | some a => some a
        | none => none)
     | none => none).getD
      (match (CType.elaboratedTy c).getCanonical with
       | .recordTy d2 =>
         (match aliasLookup al (TypeId.declId d2.hash) with
          | some a => a
          | none => (CType.elaboratedTy c).spelling)
       | _ => (CType.elaboratedTy c).spelling)
  | .fundTy .ulong _ => "long unsigned int"
  | .fundTy .long _ => "long unsigned int"
  | .fundTy .uchar _ => "unsigned char"
  | .fundTy .char_u _ => "unsigned char"
  | t => t.spelling

/- gen.py lines 270-273, Field._resolve_type. -/
def Field_resolve_type (al : List (TypeId × String)) (typ : CType) : String :=
  match aliasLookup al (TypeId.spellId (Field_get_type_spelling al typ)) with
  | some a => a
  | none => Field_get_type_spelling al typ

/- gen.py lines 333-360, Function._get_type_spelling(typ). -/
def Function_get_type_spelling (typ : CType) : String :=
  match typ with
  | .typedefTy d _ => d.spelling
  | .pointerTy p =>
    match p with
    | .typedefTy d _ => d.spelling ++ " *"
    | .fundTy .ulong _ => "long unsigned int *"
    | .fundTy .long _ => "long unsigned int *"
    | .fundTy .uchar _ => "unsigned char *"
    | .fundTy .char_u _ => "unsigned char *"
    | .fundTy .void _ => "void *"
    | _ => p.spelling ++ " *"
  | .fundTy .ulong _ => "long unsigned int"
  | .fundTy .long _ => "long unsigned int"
  | .fundTy .uchar _ => "unsigned char"
  | .fundTy .char_u _ => "unsigned char"
  | t => t.spelling

/- gen.py lines 362-365, Function._resolve_type. -/
def Function_resolve_type (al : List (TypeId × String)) (typ : CType) : String :=
  match aliasLookup al (TypeId.spellId (Function_get_type_spelling typ)) with
  | some a => a
  | none => Function_get_type_spelling typ

/- A FIELD_DECL child of a struct cursor: spelling and type. -/
structure FieldCursor where
  name : String
  ftype : CType
deriving DecidableEq

/- A top-level declaration cursor of the translation unit, carrying exactly
   what the two collection passes of gen.py read off it.  mainFile is the
   value of (location.file is None) or _is_main_file(location.file), i.e.
   true when the cursor is not skipped by the system-header filter. -/
inductive TopDecl where
  | typedefDecl (name : String) (hash : Nat) (underlying : CType) (mainFile : Bool)
  | structDecl (tag : String) (hash : Nat) (isDef : Bool) (fields : List FieldCursor) (mainFile : Bool)
  | functionDecl (name : String) (hash : Nat) (file : Option String) (mainFile : Bool)
  | otherDecl (mainFile : Bool)
deriving DecidableEq

/- gen.py lines 446-472, the body of the _collect_typedefs loop for one
   child cursor: POINTER underlying records hash(f-string of pointee spelling
   plus " *") -> typedef name; RECORD / ELABORATED underlying with a found
   declaration records str(decl.hash) -> typedef name unless the tag starts
   with "CK_" (in which case it is only printed). -/
def typedef_step (acc : List (TypeId × String)) : TopDecl → List (TypeId × String)
  | .typedefDecl name _ underlying mainFile =>
    if mainFile then
      match underlying with
      | .pointerTy p => (TypeId.spellId (p.spelling ++ " *"), name) :: acc
      | .recordTy d =>
        if str_startsWith d.spelling ("CK_") then acc
        else (TypeId.declId d.hash, name) :: acc
      | .elaboratedTy c =>
        (match (CType.elaboratedTy c).getDeclOpt with
         | some d =>
           if str_startsWith d.spelling ("CK_") then acc
           else (TypeId.declId d.hash, name) :: acc
         | none => acc)
      | _ => acc
    else acc
  | _ => acc

def AST_collect_typedefs_aux (acc : List (TypeId × String)) : List TopDecl → List (TypeId × String)
  | [] => acc
  | d :: rest => AST_collect_typedefs_aux (typedef_step acc d) rest

/- gen.py line 409: first pass over the tree building self.aliases. -/
def AST_collect_typedefs (ds : List TopDecl) : List (TypeId × String) :=
  AST_collect_typedefs_aux [] ds

/- The Struct objects gen.py accumulates in self.structs: raw cursor spelling
   (the tag), str(cursor.hash), and the FIELD_DECL members in order. -/
structure StructOut where
  name : String
  typeId : Nat
  members : List FieldCursor
deriving DecidableEq

/- The Function objects gen.py accumulates in the functions dict; file is
   cursor.extent.start.file (None modelled as none), read when the origin is
   determined. -/
structure FunDecl where
  name : String
  file : Option String
deriving DecidableEq

/- gen.py lines 487-494 and 284-293: the display / filter name of a struct,
   aliases.get(str(hash)) with the raw tag as fallback; the same formula is
   used by the collector filter and by Struct.resolve / Struct.to_json. -/
def struct_candidate_name (al : List (TypeId × String)) (tag : String) (h : Nat) : String :=
  match aliasLookup al (TypeId.declId h) with
  | some a => a
  | none => tag

/- Python dict lookup for the functions dict: assignments later in the
   traversal overwrite earlier ones, so the last matching entry wins. -/
def fnLookup (fns : List (String × FunDecl)) (n : String) : Option FunDecl :=
  match fns with
  | [] => none
  | (k, v) :: rest =>
    match fnLookup rest n with
    | some r => some r
    | none => if k = n then some v else none

/- gen.py lines 474-515, _collect_declarations: skip non-main-file cursors;
   keep struct definitions whose candidate (alias-or-tag) name starts with
   "CK_"; keep functions whose spelling starts with "C_". -/
def AST_collect_declarations (al : List (TypeId × String)) : List TopDecl → List StructOut × List (String × FunDecl)
  | [] => ([], [])
  | d :: rest =>
    let sf := AST_collect_declarations al rest
    match d with
    | .structDecl tag h isDef fields mf =>
      if mf then
        if isDef then
          if str_startsWith (struct_candidate_name al tag h) ("CK_") then
            (⟨tag, h, fields⟩ :: sf.1, sf.2)
          else sf
        else sf
      else sf
    | .functionDecl name _ file mf =>
      if mf then
        if str_startsWith name ("C_") then (sf.1, (name, ⟨name, file⟩) :: sf.2)
        else sf
      else sf
    | _ => sf

/- gen.py lines 524-540, AST.get_function_names: find the struct whose RAW
   tag is _CK_FUNCTION_LIST (version 2) or _CK_FUNCTION_LIST_3_0 (otherwise)
   and return its member names with the first member dropped; [] when the
   struct is absent. -/
def AST_get_function_names (version : Nat) (structs : List StructOut) : List String :=
  let structName := if version = 2 then ("_CK_FUNCTION_LIST") else ("_CK_FUNCTION_LIST_3_0")
  match structs.find? (fun s => s.name == structName) with
  | some s => (s.members.drop 1).map FieldCursor.name
  | none => []

/- A function as it appears in the emitted document: name plus the version
   tag assigned by the loop in AST.__init__. -/
structure FunOut where
  name : String
  version : Nat
deriving DecidableEq

/- gen.py lines 436-444: for each name of the 3.0 list, in order, keep it if
   it was collected as a declared function, tagging version 3 exactly when the
   name is missing from the 2.x list. -/
def AST_build_functions (n2 : List String) (n3 : List String) (fns : List (String × FunDecl)) : List FunOut :=
  match n3 with
  | [] => []
  | n :: rest =>
    if (fnLookup fns n).isSome then
      ⟨n, if n ∈ n2 then 2 else 3⟩ :: AST_build_functions n2 rest fns
    else AST_build_functions n2 rest fns

/- gen.py lines 414-430: origin is the declaring file of C_GetInterfaceList
   when that function was collected and has a file, otherwise stays None.
   (The os.path relative-path rewriting is external path cosmetics and is
   modelled as the stored path itself.) -/
def AST_origin (fns : List (String × FunDecl)) : Option String :=
  match fnLookup fns ("C_GetInterfaceList") with
  | some f => f.file
  | none => none

/- The document content AST.__init__ leaves on the object for serialization:
   structs in declaration order, the versioned function list, the origin. -/
structure ASTOut where
  structs : List StructOut
  functions : List FunOut
  origin : Option String
deriving DecidableEq

/- gen.py lines 399-444, AST.__init__ on a parsed tree. -/
def AST_init (ds : List TopDecl) : ASTOut :=
  let al := AST_collect_typedefs ds
  let sf := AST_collect_declarations al ds
  let n2 := AST_get_function_names 2 sf.1
  let n3 := AST_get_function_names 3 sf.1
  ⟨sf.1, AST_build_functions n2 n3 sf.2, AST_origin sf.2⟩

/- Sample declaration trees and type chains used as concrete inputs below. -/

def ulongT : CType := CType.fundTy FundKind.ulong ("unsigned long")

def c1Chain : CType :=
  CType.typedefTy ⟨6, "CK_VOID_X"⟩ (CType.fundTy FundKind.void ("void"))

def c6Chain1 : CType :=
  CType.typedefTy ⟨20, "CK_BYTE"⟩ (CType.fundTy FundKind.uchar ("unsigned char"))

def c6Chain2 : CType :=
  CType.typedefTy ⟨21, "CK_UTF8CHAR"⟩ (CType.fundTy FundKind.uchar ("unsigned char"))

/- A tree whose base dispatch table lists C_Extra while the 3.0 table does
   not: the superset precondition of the spec is violated. -/
def c2Tree : List TopDecl :=
  [ TopDecl.typedefDecl ("CK_FUNCTION_LIST") 100 (CType.recordTy ⟨1, "_CK_FUNCTION_LIST"⟩) true,
    TopDecl.typedefDecl ("CK_FUNCTION_LIST_3_0") 101 (CType.recordTy ⟨2, "_CK_FUNCTION_LIST_3_0"⟩) true,
    TopDecl.structDecl ("_CK_FUNCTION_LIST") 1 true
      [⟨"version", ulongT⟩, ⟨"C_Initialize", ulongT⟩, ⟨"C_Extra", ulongT⟩] true,
    TopDecl.structDecl ("_CK_FUNCTION_LIST_3_0") 2 true
      [⟨"version", ulongT⟩, ⟨"C_Initialize", ulongT⟩] true,
    TopDecl.functionDecl ("C_Initialize") 50 none true,
    TopDecl.functionDecl ("C_Extra") 51 none true ]

/- The end-to-end versioning scenario: base table (version, C_Initialize,
   C_Finalize), 3.0 table adds C_LoginModule; C_GetInterfaceList is declared
   but sits in neither table. -/
def c3Tree : List TopDecl :=
  [ TopDecl.typedefDecl ("CK_FUNCTION_LIST") 100 (CType.recordTy ⟨1, "_CK_FUNCTION_LIST"⟩) true,
    TopDecl.typedefDecl ("CK_FUNCTION_LIST_3_0") 101 (CType.recordTy ⟨2, "_CK_FUNCTION_LIST_3_0"⟩) true,
    TopDecl.structDecl ("_CK_FUNCTION_LIST") 1 true
      [⟨"version", ulongT⟩, ⟨"C_Initialize", ulongT⟩, ⟨"C_Finalize", ulongT⟩] true,
    TopDecl.structDecl ("_CK_FUNCTION_LIST_3_0") 2 true
      [⟨"version", ulongT⟩, ⟨"C_Initialize", ulongT⟩, ⟨"C_Finalize", ulongT⟩,
       ⟨"C_LoginModule", ulongT⟩] true,
    TopDecl.functionDecl ("C_Initialize") 50 none true,
    TopDecl.functionDecl ("C_Finalize") 51 none true,
    TopDecl.functionDecl ("C_LoginModule") 52 none true,
    TopDecl.functionDecl ("C_GetInterfaceList") 53 (some ("pkcs11.h")) true ]

/- A typedef T over struct S (tag without the CK_ prefix, so an alias is
   recorded for the identity of S). -/
def c4Tree : List TopDecl :=
  [ TopDecl.typedefDecl ("T") 10 (CType.recordTy ⟨1, "S"⟩) true ]

def c4Aliases : List (TypeId × String) := AST_collect_typedefs c4Tree

/- Two structs and two functions, one of each lacking the domain prefix. -/
def c8Tree : List TopDecl :=
  [ TopDecl.structDecl ("CK_VERSION") 5 true [] true,
    TopDecl.structDecl ("hidden") 6 true [] true,
    TopDecl.functionDecl ("C_Initialize") 7 none true,
    TopDecl.functionDecl ("main") 8 none true ]

/- A typedef whose chain terminates in an elaborated struct: an unsupported
   terminal that is not a fundamental scalar. -/
def c1Chain2 : CType :=
  CType.typedefTy ⟨40, "CK_VERSION_T"⟩ (CType.elaboratedTy (CType.recordTy ⟨8, "CK_VERSION"⟩))

/- Both dispatch-table structs present, but no C_GetInterfaceList declared. -/
def c5TreeA : List TopDecl :=
  [ TopDecl.typedefDecl ("CK_FUNCTION_LIST") 100 (CType.recordTy ⟨1, "_CK_FUNCTION_LIST"⟩) true,
    TopDecl.typedefDecl ("CK_FUNCTION_LIST_3_0") 101 (CType.recordTy ⟨2, "_CK_FUNCTION_LIST_3_0"⟩) true,
    TopDecl.structDecl ("_CK_FUNCTION_LIST") 1 true
      [⟨"version", ulongT⟩, ⟨"C_Initialize", ulongT⟩] true,
    TopDecl.structDecl ("_CK_FUNCTION_LIST_3_0") 2 true
      [⟨"version", ulongT⟩, ⟨"C_Initialize", ulongT⟩] true,
    TopDecl.functionDecl ("C_Initialize") 50 none true ]

/- C_GetInterfaceList declared, but no 3.0 dispatch-table struct. -/
def c5TreeB : List TopDecl :=
  [ TopDecl.typedefDecl ("CK_FUNCTION_LIST") 100 (CType.recordTy ⟨1, "_CK_FUNCTION_LIST"⟩) true,
    TopDecl.structDecl ("_CK_FUNCTION_LIST") 1 true
      [⟨"version", ulongT⟩, ⟨"C_Initialize", ulongT⟩] true,
    TopDecl.functionDecl ("C_Initialize") 50 none true,
    TopDecl.functionDecl ("C_GetInterfaceList") 53 (some ("pkcs11.h")) true ]

/- Helper lemmas about the FFI classifiers. -/

theorem ffi_fundamental_check_mem (t : CType) :
    ffi_fundamental_check t = "pointer" ∨ ffi_fundamental_check t = "uchar" ∨
      ffi_fundamental_check t = "ulong" := by
  cases t with
  | fundTy k sp =>
    cases k <;> first
      | exact Or.inl rfl
      | exact Or.inr (Or.inl rfl)
      | exact Or.inr (Or.inr rfl)
  | typedefTy d c => exact Or.inl rfl
  | pointerTy p => exact Or.inl rfl
  | recordTy d => exact Or.inl rfl
  | elaboratedTy c => exact Or.inl rfl
  | arrayTy e n => exact Or.inl rfl
  | funcTy b => exact Or.inl rfl
  | otherTy sp => exact Or.inl rfl

theorem Function_resolve_ffi_type_total (t : CType) :
    Function_resolve_ffi_type t = "pointer" ∨ Function_resolve_ffi_type t = "uchar" ∨
      Function_resolve_ffi_type t = "ulong" := by
  induction t with
  | typedefTy d c ih => exact ih
  | pointerTy p ih => exact Or.inl rfl
  | elaboratedTy c ih => exact ffi_fundamental_check_mem c
  | recordTy d => exact ffi_fundamental_check_mem (CType.recordTy d)
  | arrayTy e n ih => exact ffi_fundamental_check_mem (CType.arrayTy e n)
  | fundTy k sp => exact ffi_fundamental_check_mem (CType.fundTy k sp)
  | funcTy b => exact ffi_fundamental_check_mem (CType.funcTy b)
  | otherTy sp => exact ffi_fundamental_check_mem (CType.otherTy sp)

theorem Function_chain_to_terminal (t : CType) :
    Function_resolve_ffi_type t = Function_resolve_ffi_type (typedefTerminal t) := by
  induction t with
  | typedefTy d c ih => exact ih
  | pointerTy p ih => rfl
  | elaboratedTy c ih => rfl
  | recordTy d => rfl
  | arrayTy e n ih => rfl
  | fundTy k sp => rfl
  | funcTy b => rfl
  | otherTy sp => rfl

theorem Typedef_chain_to_terminal (types : List TypeId) (t : CType) :
    Typedef_resolve_underlying_ffi_type types t
      = Typedef_resolve_underlying_ffi_type types (typedefTerminal t) := by
  induction t with
  | typedefTy d c ih => exact ih
  | pointerTy p ih => rfl
  | elaboratedTy c ih => rfl
  | recordTy d => rfl
  | arrayTy e n ih => rfl
  | fundTy k sp => rfl
  | funcTy b => rfl
  | otherTy sp => rfl

/- Claims C1, C6, C9. -/

/-- Claim C1 counterexample: the typedef chain CK_VOID_X resolving to a
fundamental of kind VOID (neither pointer nor a recognized 8-bit / 64-bit
kind) is classified with the default tag "pointer"; the classification cannot
fail, contradicting the claimed UnsupportedConstruct error. -/
theorem claim_C1_cex : Function_resolve_ffi_type c1Chain = "pointer" := rfl

/-- Claim C1 (amended): when the typedef chain of a declaration terminates in
a kind that is neither a pointer nor one of the recognized fundamental kinds
ULONG, LONG, UCHAR, CHAR_U (covering terminal records, arrays, function
types, other kinds, unrecognized fundamental widths, and elaborated terminals
whose canonical is not a recognized fundamental), no error is raised:
Function._resolve_ffi_type returns the default tag "pointer", and
Typedef._resolve_underlying_ffi_type (whose recognized 8-bit set additionally
contains CHAR_S) returns "pointer" whenever the terminal's id is not a key of
the collected-types dict.  No unsupported-construct error exists. -/
theorem claim_C1_thm (t : CType)
    (hp : ∀ p : CType, typedefTerminal t ≠ CType.pointerTy p)
    (hf : ∀ (k : FundKind) (s : String), typedefTerminal t = CType.fundTy k s →
        k ≠ FundKind.ulong ∧ k ≠ FundKind.long ∧ k ≠ FundKind.uchar ∧ k ≠ FundKind.char_u)
    (he : ∀ (c : CType) (k : FundKind) (s : String),
        typedefTerminal t = CType.elaboratedTy c → c = CType.fundTy k s →
        k ≠ FundKind.ulong ∧ k ≠ FundKind.long ∧ k ≠ FundKind.uchar ∧ k ≠ FundKind.char_u) :
    Function_resolve_ffi_type t = "pointer" ∧
    ((∀ s : String, typedefTerminal t ≠ CType.fundTy FundKind.char_s s) →
      ∀ types : List TypeId, Typedef_get_type_id (typedefTerminal t) ∉ types →
        Typedef_resolve_underlying_ffi_type types t = Except.ok ("pointer")) := by
  induction t with
  | typedefTy d c ih => exact ih hp hf he
  | pointerTy p _ih => exact absurd rfl (hp p)
  | fundTy k s =>
    obtain ⟨n1, n2, n3, n4⟩ := hf k s rfl
    constructor
    · cases k <;> first
        | exact absurd rfl n1
        | exact absurd rfl n2
        | exact absurd rfl n3
        | exact absurd rfl n4
        | rfl
    · intro hcs types hmem
      simp only [typedefTerminal] at hmem
      have n5 : k ≠ FundKind.char_s := by
        intro hk
        subst hk
        exact hcs s rfl
      cases k <;> first
        | exact absurd rfl n1
        | exact absurd rfl n2
        | exact absurd rfl n3
        | exact absurd rfl n4
        | exact absurd rfl n5
        | simp [Typedef_resolve_underlying_ffi_type, hmem]
  | recordTy d =>
    refine ⟨rfl, ?_⟩
    intro _hcs types hmem
    simp only [typedefTerminal] at hmem
    simp [Typedef_resolve_underlying_ffi_type, hmem]
  | elaboratedTy c _ih =>
    constructor
    · show ffi_fundamental_check c = "pointer"
      cases c with
      | fundTy k s =>
        obtain ⟨n1, n2, n3, n4⟩ := he (CType.fundTy k s) k s rfl rfl
        cases k <;> first
          | exact absurd rfl n1
          | exact absurd rfl n2
          | exact absurd rfl n3
          | exact absurd rfl n4
          | rfl
      | typedefTy d c2 => rfl
      | pointerTy p => rfl
      | recordTy d => rfl
      | elaboratedTy c2 => rfl
      | arrayTy e n => rfl
      | funcTy b => rfl
      | otherTy sp => rfl
    · intro _hcs types hmem
      simp only [typedefTerminal] at hmem
      simp [Typedef_resolve_underlying_ffi_type, hmem]
  | arrayTy e n _ih =>
    refine ⟨rfl, ?_⟩
    intro _hcs types hmem
    simp only [typedefTerminal] at hmem
    simp [Typedef_resolve_underlying_ffi_type, hmem]
  | funcTy b =>
    refine ⟨rfl, ?_⟩
    intro _hcs types hmem
    simp only [typedefTerminal] at hmem
    simp [Typedef_resolve_underlying_ffi_type, hmem]
  | otherTy sp =>
    refine ⟨rfl, ?_⟩
    intro _hcs types hmem
    simp only [typedefTerminal] at hmem
    simp [Typedef_resolve_underlying_ffi_type, hmem]

/-- Claim C1 witness: the amended theorem applied to the typedef-of-struct
chain CK_VERSION_T -> elaborated struct CK_VERSION (a non-fundamental
unsupported terminal, with the empty collected-types dict) and to the chain
CK_VOID_X -> void (an unrecognized fundamental width). -/
theorem claim_C1_wit :
    Function_resolve_ffi_type c1Chain2 = "pointer" ∧
    Typedef_resolve_underlying_ffi_type [] c1Chain2 = Except.ok ("pointer") ∧
    Function_resolve_ffi_type c1Chain = "pointer" ∧
    Typedef_resolve_underlying_ffi_type [] c1Chain = Except.ok ("pointer") := by
  refine ⟨?_, ?_, ?_, ?_⟩
  · exact (claim_C1_thm c1Chain2
      (fun p h => by simp [c1Chain2, typedefTerminal] at h)
      (fun k s h => by simp [c1Chain2, typedefTerminal] at h)
      (fun c k s h1 h2 => by
        simp [c1Chain2, typedefTerminal] at h1
        subst h1
        simp at h2)).1
  · exact (claim_C1_thm c1Chain2
      (fun p h => by simp [c1Chain2, typedefTerminal] at h)
      (fun k s h => by simp [c1Chain2, typedefTerminal] at h)
      (fun c k s h1 h2 => by
        simp [c1Chain2, typedefTerminal] at h1
        subst h1
        simp at h2)).2
      (fun s h => by simp [c1Chain2, typedefTerminal] at h) [] (by simp)
  · exact (claim_C1_thm c1Chain
      (fun p h => by simp [c1Chain, typedefTerminal] at h)
      (fun k s h => by
        injection h with hk hs
        subst hk
        exact ⟨by decide, by decide, by decide, by decide⟩)
      (fun c k s h1 h2 => by simp [c1Chain, typedefTerminal] at h1)).1
  · exact (claim_C1_thm c1Chain
      (fun p h => by simp [c1Chain, typedefTerminal] at h)
      (fun k s h => by
        injection h with hk hs
        subst hk
        exact ⟨by decide, by decide, by decide, by decide⟩)
      (fun c k s h1 h2 => by simp [c1Chain, typedefTerminal] at h1)).2
      (fun s h => by simp [c1Chain, typedefTerminal] at h) [] (by simp)

/-- Claim C6: two declarations whose typedef chains terminate in the same
fundamental kind classify identically, independently of every declared name
or spelling along the chains: both yield "uchar" for the 8-bit kinds
(UCHAR, CHAR_S, CHAR_U) and "ulong" for the 64-bit kinds (ULONG, LONG) under
Typedef._resolve_underlying_ffi_type, and FundamentalType.resolve_ffi_type
gives equal tags on equal kinds whatever the spellings. -/
theorem claim_C6_thm (types : List TypeId) (t1 t2 : CType) (k : FundKind) (s1 s2 : String)
    (h1 : typedefTerminal t1 = CType.fundTy k s1)
    (h2 : typedefTerminal t2 = CType.fundTy k s2) :
    ((k = FundKind.uchar ∨ k = FundKind.char_s ∨ k = FundKind.char_u) →
        Typedef_resolve_underlying_ffi_type types t1 = Except.ok ("uchar") ∧
        Typedef_resolve_underlying_ffi_type types t2 = Except.ok ("uchar")) ∧
    ((k = FundKind.ulong ∨ k = FundKind.long) →
        Typedef_resolve_underlying_ffi_type types t1 = Except.ok ("ulong") ∧
        Typedef_resolve_underlying_ffi_type types t2 = Except.ok ("ulong")) ∧
    FundamentalType_resolve_ffi_type (CType.fundTy k s1)
      = FundamentalType_resolve_ffi_type (CType.fundTy k s2) := by
  refine ⟨?_, ?_, ?_⟩
  · rintro (rfl | rfl | rfl) <;>
      exact ⟨by rw [Typedef_chain_to_terminal, h1]; rfl,
             by rw [Typedef_chain_to_terminal, h2]; rfl⟩
  · rintro (rfl | rfl) <;>
      exact ⟨by rw [Typedef_chain_to_terminal, h1]; rfl,
             by rw [Typedef_chain_to_terminal, h2]; rfl⟩
  · cases k <;> rfl

/-- Claim C6 witness: the distinct typedefs CK_BYTE and CK_UTF8CHAR, both
underlain by the 8-bit UCHAR, classify identically as "uchar". -/
theorem claim_C6_wit :
    typedefTerminal c6Chain1 = CType.fundTy FundKind.uchar ("unsigned char") ∧
    typedefTerminal c6Chain2 = CType.fundTy FundKind.uchar ("unsigned char") ∧
    Typedef_resolve_underlying_ffi_type [] c6Chain1 = Except.ok ("uchar") ∧
    Typedef_resolve_underlying_ffi_type [] c6Chain2 = Except.ok ("uchar") :=
  ⟨rfl, rfl,
   ((claim_C6_thm [] c6Chain1 c6Chain2 FundKind.uchar ("unsigned char") ("unsigned char")
       rfl rfl).1 (Or.inl rfl)).1,
   ((claim_C6_thm [] c6Chain1 c6Chain2 FundKind.uchar ("unsigned char") ("unsigned char")
       rfl rfl).1 (Or.inl rfl)).2⟩

/-- Claim C9 counterexample: Typedef.resolve_ffi_type on a typedef whose
underlying type is an elaborated struct whose identity is a key of the
collected-types dict raises NotImplementedError (the dict stores Struct
objects, which inherit the unimplemented base resolve_ffi_type), so the
operation is not error-free on every declaration. -/
theorem claim_C9_cex :
    Typedef_resolve_ffi_type [TypeId.declId 7]
      (CType.elaboratedTy (CType.recordTy ⟨7, "CK_VERSION"⟩))
      = Except.error ("NotImplementedError") := rfl

/-- Claim C9 (amended): Function._resolve_ffi_type is total and always
returns one of exactly "pointer", "uchar", "ulong" (defaulting to "pointer"
for every unrecognized kind); Typedef._resolve_underlying_ffi_type likewise
terminates and returns one of those three strings provided the id of the
terminal type of the typedef chain is not a key of the collected-types dict
(when it is, NotImplementedError is raised). -/
theorem claim_C9_thm :
    (∀ t : CType, Function_resolve_ffi_type t = "pointer" ∨
        Function_resolve_ffi_type t = "uchar" ∨ Function_resolve_ffi_type t = "ulong") ∧
    (∀ (types : List TypeId) (t : CType),
        Typedef_get_type_id (typedefTerminal t) ∉ types →
        ∃ r, Typedef_resolve_underlying_ffi_type types t = Except.ok r ∧
          (r = "pointer" ∨ r = "uchar" ∨ r = "ulong")) := by
  constructor
  · exact Function_resolve_ffi_type_total
  · intro types t hmem
    induction t with
    | typedefTy d c ih => exact ih hmem
    | pointerTy p ih => exact ⟨"pointer", rfl, Or.inl rfl⟩
    | fundTy k sp =>
      simp only [typedefTerminal] at hmem
      cases k <;> first
        | exact ⟨"ulong", rfl, Or.inr (Or.inr rfl)⟩
        | exact ⟨"uchar", rfl, Or.inr (Or.inl rfl)⟩
        | exact ⟨"pointer", by simp [Typedef_resolve_underlying_ffi_type, hmem], Or.inl rfl⟩
    | recordTy d =>
      simp only [typedefTerminal] at hmem
      exact ⟨"pointer", by simp [Typedef_resolve_underlying_ffi_type, hmem], Or.inl rfl⟩
    | elaboratedTy c ih =>
      simp only [typedefTerminal] at hmem
      exact ⟨"pointer", by simp [Typedef_resolve_underlying_ffi_type, hmem], Or.inl rfl⟩
    | arrayTy e n ih =>
      simp only [typedefTerminal] at hmem
      exact ⟨"pointer", by simp [Typedef_resolve_underlying_ffi_type, hmem], Or.inl rfl⟩
    | funcTy b =>
      simp only [typedefTerminal] at hmem
      exact ⟨"pointer", by simp [Typedef_resolve_underlying_ffi_type, hmem], Or.inl rfl⟩
    | otherTy sp =>
      simp only [typedefTerminal] at hmem
      exact ⟨"pointer", by simp [Typedef_resolve_underlying_ffi_type, hmem], Or.inl rfl⟩

/-- Claim C9 witness: the amended theorem applied to a record type whose
identity is not in the (empty) collected-types dict. -/
theorem claim_C9_wit :
    Typedef_get_type_id (typedefTerminal (CType.recordTy ⟨3, "S3"⟩)) ∉ ([] : List TypeId) ∧
    (∃ r, Typedef_resolve_underlying_ffi_type [] (CType.recordTy ⟨3, "S3"⟩) = Except.ok r ∧
      (r = "pointer" ∨ r = "uchar" ∨ r = "ulong")) :=
  ⟨by simp, claim_C9_thm.2 [] (CType.recordTy ⟨3, "S3"⟩) (by simp)⟩

/- Claims C4, C7, C10. -/

/-- Claim C4 counterexample: with the alias table built from typedef T over
struct S, resolving a pointer whose pointee is the ELABORATED form of S
yields the raw spelling "struct S *" (PointerType._resolve_pointee returns
the canonical spelling without consulting the alias table on that path),
although the alias for the identity of S exists. -/
theorem claim_C4_cex :
    aliasLookup c4Aliases (TypeId.declId 1) = some ("T") ∧
    PointerType_resolve c4Aliases (CType.elaboratedTy (CType.recordTy ⟨1, "S"⟩))
      = "struct S *" :=
  ⟨rfl, rfl⟩

/-- Claim C4 (amended): given an alias T recorded for the identity of struct
S (and no spelling-hash alias entries for the raw spellings involved), a
pointer-to-S resolves to T ++ " *" through PointerType.resolve only when the
pointee is presented as the raw RECORD type; a tag-reference to S resolves to
T through ElaboratedType.resolve and through Field._get_type_spelling; but
the ELABORATED-pointee path of PointerType.resolve and the function-argument
pointer path (Function._get_type_spelling / _resolve_type) produce the raw
spelling "struct S *". -/
theorem claim_C4_thm (al : List (TypeId × String)) (hS : Nat) (tag T : String)
    (halias : aliasLookup al (TypeId.declId hS) = some T)
    (hsp1 : aliasLookup al (TypeId.spellId ("struct " ++ tag)) = none)
    (hsp2 : aliasLookup al (TypeId.spellId (("struct " ++ tag) ++ " *")) = none) :
    PointerType_resolve al (CType.recordTy ⟨hS, tag⟩) = T ++ " *" ∧
    ElaboratedType_resolve al (CType.elaboratedTy (CType.recordTy ⟨hS, tag⟩)) = T ∧
    Field_get_type_spelling al (CType.elaboratedTy (CType.recordTy ⟨hS, tag⟩)) = T ∧
    PointerType_resolve al (CType.elaboratedTy (CType.recordTy ⟨hS, tag⟩))
      = ("struct " ++ tag) ++ " *" ∧
    Function_get_type_spelling (CType.pointerTy (CType.elaboratedTy (CType.recordTy ⟨hS, tag⟩)))
      = ("struct " ++ tag) ++ " *" ∧
    Function_resolve_type al (CType.pointerTy (CType.elaboratedTy (CType.recordTy ⟨hS, tag⟩)))
      = ("struct " ++ tag) ++ " *" := by
  refine ⟨?_, ?_, ?_, ?_, ?_, ?_⟩
  · simp [PointerType_resolve, CType.spelling, hsp1, PointerType_resolve_pointee, halias]
  · simp [ElaboratedType_resolve, CType.getCanonical, CType.spelling, halias]
  · simp [Field_get_type_spelling, CType.getDeclOpt, halias]
  · simp [PointerType_resolve, CType.spelling, hsp1, PointerType_resolve_pointee,
          CType.getCanonical]
  · simp [Function_get_type_spelling, CType.spelling]
  · simp [Function_resolve_type, Function_get_type_spelling, CType.spelling, hsp2]

/-- Claim C4 witness: the amended theorem applied to the alias table built
from typedef T over struct S. -/
theorem claim_C4_wit :
    aliasLookup c4Aliases (TypeId.declId 1) = some ("T") ∧
    PointerType_resolve c4Aliases (CType.recordTy ⟨1, "S"⟩) = "T" ++ " *" ∧
    ElaboratedType_resolve c4Aliases (CType.elaboratedTy (CType.recordTy ⟨1, "S"⟩)) = "T" :=
  ⟨rfl,
   (claim_C4_thm c4Aliases 1 ("S") ("T") rfl rfl rfl).1,
   (claim_C4_thm c4Aliases 1 ("S") ("T") rfl rfl rfl).2.1⟩

/-- Claim C7: ArrayType.resolve (and the array arm of
Field._get_type_spelling) renders an array of declared element count n as the
resolved element spelling followed by the bracketed count n itself (the
collaborator's get_array_size already returns the element count, not a
maximum index, so no off-by-one conversion exists or is needed); in
particular a representation exposing a maximum index m corresponds to count
m + 1 and is rendered with m + 1 between the brackets. -/
theorem claim_C7_thm (elem : CType) (n : Nat) (al : List (TypeId × String)) :
    ArrayType_resolve (CType.arrayTy elem n)
        = array_elem_spelling elem ++ "[" ++ toString n ++ "]" ∧
    Field_get_type_spelling al (CType.arrayTy elem n)
        = array_elem_spelling elem ++ "[" ++ toString n ++ "]" ∧
    ∀ maxIndex : Nat, ArrayType_resolve (CType.arrayTy elem (maxIndex + 1))
        = array_elem_spelling elem ++ "[" ++ toString (maxIndex + 1) ++ "]" := by
  refine ⟨rfl, ?_, fun maxIndex => rfl⟩
  cases elem <;> rfl

/- The alias table never maps the identity of a struct all of whose
   typedef references see a CK_-prefixed tag: auxiliary induction over the
   first collection pass, generalized over the accumulator. -/
theorem collect_typedefs_aux_declId_none (h : Nat) (ds : List TopDecl) :
    (∀ d ∈ ds, ∀ (name : String) (th : Nat) (u : CType) (mf : Bool),
        d = TopDecl.typedefDecl name th u mf →
        ∀ dd : DeclInfo, u.getDeclOpt = some dd → dd.hash = h →
          str_startsWith dd.spelling ("CK_") = true) →
    ∀ acc : List (TypeId × String),
      aliasLookup acc (TypeId.declId h) = none →
      aliasLookup (AST_collect_typedefs_aux acc ds) (TypeId.declId h) = none := by
  induction ds with
  | nil => intro _ acc hacc; exact hacc
  | cons d rest ih =>
    intro hck acc hacc
    refine ih (fun d2 hd2 => hck d2 (List.mem_cons_of_mem _ hd2)) (typedef_step acc d) ?_
    have hd := hck d (List.mem_cons_self _ _)
    cases d with
    | typedefDecl name th u mf =>
      cases mf with
      | false => simpa [typedef_step] using hacc
      | true =>
        cases u with
        | pointerTy p => simpa [typedef_step, aliasLookup] using hacc
        | recordTy dd =>
          cases hck2 : str_startsWith dd.spelling ("CK_") with
          | true => simpa [typedef_step, hck2] using hacc
          | false =>
            have hne : dd.hash ≠ h := by
              intro he
              have := hd name th (CType.recordTy dd) true rfl dd rfl he
              rw [hck2] at this
              exact Bool.false_ne_true this
            simp only [typedef_step, hck2, Bool.false_eq_true, if_true, if_false,
              ite_false, ite_true]
            simpa [typedef_step, hck2, aliasLookup, hne] using hacc
        | elaboratedTy c =>
          cases hdo : (CType.elaboratedTy c).getDeclOpt with
          | none => simpa [typedef_step, hdo] using hacc
          | some dd =>
            cases hck2 : str_startsWith dd.spelling ("CK_") with
            | true => simpa [typedef_step, hdo, hck2] using hacc
            | false =>
              have hne : dd.hash ≠ h := by
                intro he
                have := hd name th (CType.elaboratedTy c) true rfl dd hdo he
                rw [hck2] at this
                exact Bool.false_ne_true this
              simpa [typedef_step, hdo, hck2, aliasLookup, hne] using hacc
        | typedefTy d0 c0 => simpa [typedef_step] using hacc
        | arrayTy e n => simpa [typedef_step] using hacc
        | fundTy k sp => simpa [typedef_step] using hacc
        | funcTy b => simpa [typedef_step] using hacc
        | otherTy sp => simpa [typedef_step] using hacc
    | structDecl tag th isDef fields mf => simpa [typedef_step] using hacc
    | functionDecl name th file mf => simpa [typedef_step] using hacc
    | otherDecl mf => simpa [typedef_step] using hacc

/-- Claim C10: if every typedef in the tree whose underlying type declares
identity h sees a CK_-prefixed tag there, then after the first collection
pass no alias is recorded for identity h, and consequently the candidate
(filter / display) name of a struct with identity h is always its raw tag,
never a typedef name. -/
theorem claim_C10_thm (ds : List TopDecl) (h : Nat)
    (hck : ∀ d ∈ ds, ∀ (name : String) (th : Nat) (u : CType) (mf : Bool),
        d = TopDecl.typedefDecl name th u mf →
        ∀ dd : DeclInfo, u.getDeclOpt = some dd → dd.hash = h →
          str_startsWith dd.spelling ("CK_") = true) :
    aliasLookup (AST_collect_typedefs ds) (TypeId.declId h) = none ∧
    ∀ tag : String, struct_candidate_name (AST_collect_typedefs ds) tag h = tag := by
  have hnone : aliasLookup (AST_collect_typedefs ds) (TypeId.declId h) = none :=
    collect_typedefs_aux_declId_none h ds hck [] rfl
  exact ⟨hnone, fun tag => by simp [struct_candidate_name, hnone]⟩

/-- Claim C10 witness: typedef CK_VERSION over struct CK_VERSION (tag with
the CK_ prefix) leaves identity 8 unaliased and the candidate name raw. -/
theorem claim_C10_wit :
    aliasLookup
        (AST_collect_typedefs
          [TopDecl.typedefDecl ("CK_VERSION") 30 (CType.recordTy ⟨8, "CK_VERSION"⟩) true])
        (TypeId.declId 8) = none ∧
    struct_candidate_name
        (AST_collect_typedefs
          [TopDecl.typedefDecl ("CK_VERSION") 30 (CType.recordTy ⟨8, "CK_VERSION"⟩) true])
        ("CK_VERSION") 8 = ("CK_VERSION") := by
  have hck : ∀ d ∈ [TopDecl.typedefDecl ("CK_VERSION") 30 (CType.recordTy ⟨8, "CK_VERSION"⟩) true],
      ∀ (name : String) (th : Nat) (u : CType) (mf : Bool),
        d = TopDecl.typedefDecl name th u mf →
        ∀ dd : DeclInfo, u.getDeclOpt = some dd → dd.hash = 8 →
          str_startsWith dd.spelling ("CK_") = true := by
    intro d hdmem name th u mf hde dd hdd hh
    rw [List.mem_singleton] at hdmem
    subst hdmem
    cases hde
    simp only [CType.getDeclOpt, Option.some.injEq] at hdd
    subst hdd
    decide
  exact ⟨(claim_C10_thm _ 8 hck).1, (claim_C10_thm _ 8 hck).2 ("CK_VERSION")⟩

/- Helper lemmas about the versioned-function construction. -/

theorem AST_build_functions_map_name (n2 : List String) (fns : List (String × FunDecl))
    (n3 : List String) :
    (AST_build_functions n2 n3 fns).map FunOut.name
      = n3.filter (fun n => (fnLookup fns n).isSome) := by
  induction n3 with
  | nil => rfl
  | cons n rest ih =>
    cases hn : (fnLookup fns n).isSome with
    | true => simp [AST_build_functions, hn, ih]
    | false => simp [AST_build_functions, hn, ih]

theorem AST_build_functions_version (n2 : List String) (fns : List (String × FunDecl))
    (n3 : List String) :
    ∀ f ∈ AST_build_functions n2 n3 fns, f.version = if f.name ∈ n2 then 2 else 3 := by
  induction n3 with
  | nil => intro f hf; simp [AST_build_functions] at hf
  | cons n rest ih =>
    intro f hf
    cases hn : (fnLookup fns n).isSome with
    | true =>
      simp only [AST_build_functions, hn, if_true] at hf
      rcases List.mem_cons.mp hf with hf1 | hf2
      · subst hf1; rfl
      · exact ih f hf2
    | false =>
      simp only [AST_build_functions, hn, Bool.false_eq_true, if_false] at hf
      exact ih f hf

theorem AST_init_functions_eq (ds : List TopDecl) :
    (AST_init ds).functions = AST_build_functions
      (AST_get_function_names 2 (AST_collect_declarations (AST_collect_typedefs ds) ds).1)
      (AST_get_function_names 3 (AST_collect_declarations (AST_collect_typedefs ds) ds).1)
      (AST_collect_declarations (AST_collect_typedefs ds) ds).2 := rfl

theorem AST_init_structs_eq (ds : List TopDecl) :
    (AST_init ds).structs = (AST_collect_declarations (AST_collect_typedefs ds) ds).1 := rfl

theorem AST_init_origin_eq (ds : List TopDecl) :
    (AST_init ds).origin = AST_origin (AST_collect_declarations (AST_collect_typedefs ds) ds).2 :=
  rfl

/- Claims C2, C3, C5, C8. -/

/-- Claim C2 counterexample: in c2Tree the base list contains C_Extra, which
the superseding list lacks, yet the run completes normally and emits a full
document (one function, both dispatch structs, no error of any kind): no
VersionSupersetViolation exists and nothing is asserted. -/
theorem claim_C2_cex :
    ("C_Extra") ∈ AST_get_function_names 2 (AST_init c2Tree).structs ∧
    ("C_Extra") ∉ AST_get_function_names 3 (AST_init c2Tree).structs ∧
    (AST_init c2Tree).functions = [⟨"C_Initialize", 2⟩] ∧
    (AST_init c2Tree).structs.map StructOut.name
      = [("_CK_FUNCTION_LIST"), ("_CK_FUNCTION_LIST_3_0")] := by
  refine ⟨by decide, by decide, by decide, by decide⟩

/-- Claim C2 (amended): the subset precondition is never asserted; a
base-list name absent from the superseding list is silently dropped (no
function of that name reaches the output) while the run completes normally
and produces the rest of the document. -/
theorem claim_C2_thm (ds : List TopDecl) (n : String)
    (hin : n ∈ AST_get_function_names 2 (AST_init ds).structs)
    (hout : n ∉ AST_get_function_names 3 (AST_init ds).structs) :
    ∀ f ∈ (AST_init ds).functions, f.name ≠ n := by
  intro f hf he
  apply hout
  rw [AST_init_structs_eq]
  have h1 : f.name ∈ (AST_init ds).functions.map FunOut.name := List.mem_map_of_mem FunOut.name hf
  rw [AST_init_functions_eq, AST_build_functions_map_name] at h1
  rw [← he]
  exact (List.mem_filter.mp h1).1

/-- Claim C2 witness: the amended theorem applied to c2Tree and the violating
name C_Extra, instantiated at the emitted function C_Initialize. -/
theorem claim_C2_wit :
    ("C_Extra") ∈ AST_get_function_names 2 (AST_init c2Tree).structs ∧
    ("C_Extra") ∉ AST_get_function_names 3 (AST_init c2Tree).structs ∧
    (FunOut.mk ("C_Initialize") 2) ∈ (AST_init c2Tree).functions ∧
    (FunOut.mk ("C_Initialize") 2).name ≠ ("C_Extra") :=
  ⟨by decide, by decide, by decide,
   claim_C2_thm c2Tree ("C_Extra") (by decide) (by decide) (FunOut.mk ("C_Initialize") 2)
     (by decide)⟩

/-- Claim C3: the emitted function list is exactly the 3.0 dispatch-table
name list (first field dropped) restricted, in order, to names collected as
declared functions; each kept function is tagged 2 when its name is also in
the base list (first field dropped) and 3 otherwise; a name absent from the
3.0 list (in particular one absent from both lists) never reaches the
output. -/
theorem claim_C3_thm (ds : List TopDecl) :
    ((AST_init ds).functions.map FunOut.name
        = (AST_get_function_names 3 (AST_init ds).structs).filter
            (fun n => (fnLookup (AST_collect_declarations (AST_collect_typedefs ds) ds).2 n).isSome)) ∧
    (∀ f ∈ (AST_init ds).functions,
        f.version = if f.name ∈ AST_get_function_names 2 (AST_init ds).structs then 2 else 3) ∧
    (∀ n : String, n ∉ AST_get_function_names 3 (AST_init ds).structs →
        ∀ f ∈ (AST_init ds).functions, f.name ≠ n) := by
  refine ⟨?_, ?_, ?_⟩
  · rw [AST_init_functions_eq, AST_init_structs_eq]
    exact AST_build_functions_map_name _ _ _
  · intro f hf
    rw [AST_init_structs_eq]
    rw [AST_init_functions_eq] at hf
    exact AST_build_functions_version _ _ _ f hf
  · intro n hout f hf he
    apply hout
    have h1 : f.name ∈ (AST_init ds).functions.map FunOut.name :=
      List.mem_map_of_mem FunOut.name hf
    rw [AST_init_functions_eq, AST_build_functions_map_name] at h1
    rw [AST_init_structs_eq, ← he]
    exact (List.mem_filter.mp h1).1

/-- Claim C3 witness: on the end-to-end scenario tree, C_LoginModule is
emitted and the theorem tags it by membership in the base list (version 3
here); the full emitted name list matches the filtered 3.0 list. -/
theorem claim_C3_wit :
    (FunOut.mk ("C_LoginModule") 3) ∈ (AST_init c3Tree).functions ∧
    (FunOut.mk ("C_LoginModule") 3).version
      = (if (FunOut.mk ("C_LoginModule") 3).name
            ∈ AST_get_function_names 2 (AST_init c3Tree).structs then 2 else 3) ∧
    (AST_init c3Tree).functions.map FunOut.name
      = [("C_Initialize"), ("C_Finalize"), ("C_LoginModule")] :=
  ⟨by decide,
   (claim_C3_thm c3Tree).2.1 (FunOut.mk ("C_LoginModule") 3) (by decide),
   by decide⟩

/-- Claim C5 counterexample: on the empty tree, which contains neither the
entry-point function nor either dispatch-table struct, AST construction
completes and yields a (empty-function, origin-less) document instead of
aborting: no MissingWellKnownDeclaration error exists. -/
theorem claim_C5_cex : AST_init [] = ⟨[], [], none⟩ := rfl

/-- Claim C5 (amended): neither absence aborts the run, and each has its own
independent consequence: when C_GetInterfaceList is absent from the collected
functions the provenance origin is left as None, and when the 3.0
dispatch-table struct is absent from the collected structs the emitted
function list is empty; in both cases the document is still produced. -/
theorem claim_C5_thm (ds : List TopDecl) :
    (fnLookup (AST_collect_declarations (AST_collect_typedefs ds) ds).2
        ("C_GetInterfaceList") = none → (AST_init ds).origin = none) ∧
    ((∀ s ∈ (AST_init ds).structs, s.name ≠ ("_CK_FUNCTION_LIST_3_0")) →
        (AST_init ds).functions = []) := by
  constructor
  · intro h1
    rw [AST_init_origin_eq]
    simp [AST_origin, h1]
  · intro h2
    have hfind : (AST_collect_declarations (AST_collect_typedefs ds) ds).1.find?
        (fun s => s.name == ("_CK_FUNCTION_LIST_3_0")) = none := by
      apply List.find?_eq_none.mpr
      intro s hs
      have := h2 s (by rw [AST_init_structs_eq]; exact hs)
      simpa using this
    have hn3 : AST_get_function_names 3
        (AST_collect_declarations (AST_collect_typedefs ds) ds).1 = [] := by
      simp [AST_get_function_names, hfind]
    rw [AST_init_functions_eq, hn3]
    rfl

/-- Claim C5 witness: the first implication applied to a tree with both
dispatch structs but no C_GetInterfaceList (origin None, one function still
emitted), and the second applied to a tree with C_GetInterfaceList but no
3.0 dispatch struct (functions empty, origin still recorded). -/
theorem claim_C5_wit :
    (AST_init c5TreeA).origin = none ∧
    (AST_init c5TreeA).functions = [FunOut.mk ("C_Initialize") 2] ∧
    (AST_init c5TreeB).origin = some ("pkcs11.h") ∧
    (AST_init c5TreeB).functions = [] :=
  ⟨(claim_C5_thm c5TreeA).1 (by decide), by decide, by decide,
   (claim_C5_thm c5TreeB).2 (by decide)⟩

/-- Claim C8: every struct retained by the collector has a candidate
(alias-or-raw-tag) name starting with the struct prefix CK_, and every
collected function name starts with the function prefix C_; a declaration
lacking its prefix is therefore excluded from the output regardless of its
structure. -/
theorem claim_C8_thm (al : List (TypeId × String)) (ds : List TopDecl) :
    (∀ s ∈ (AST_collect_declarations al ds).1,
        str_startsWith (struct_candidate_name al s.name s.typeId) ("CK_") = true) ∧
    (∀ nf ∈ (AST_collect_declarations al ds).2, str_startsWith nf.1 ("C_") = true) := by
  induction ds with
  | nil =>
    exact ⟨fun s hs => absurd hs (List.not_mem_nil s),
           fun nf hnf => absurd hnf (List.not_mem_nil nf)⟩
  | cons d rest ih =>
    obtain ⟨ih1, ih2⟩ := ih
    cases d with
    | structDecl tag h isDef fields mf =>
      cases mf with
      | false => exact ⟨by simpa [AST_collect_declarations] using ih1,
                        by simpa [AST_collect_declarations] using ih2⟩
      | true =>
        cases isDef with
        | false => exact ⟨by simpa [AST_collect_declarations] using ih1,
                          by simpa [AST_collect_declarations] using ih2⟩
        | true =>
          cases hck : str_startsWith (struct_candidate_name al tag h) ("CK_") with
          | false => exact ⟨by simpa [AST_collect_declarations, hck] using ih1,
                            by simpa [AST_collect_declarations, hck] using ih2⟩
          | true =>
            constructor
            · intro s hs
              simp only [AST_collect_declarations, hck, if_true] at hs
              rcases List.mem_cons.mp hs with hs1 | hs2
              · subst hs1; exact hck
              · exact ih1 s hs2
            · intro nf hnf
              simp only [AST_collect_declarations, hck, if_true] at hnf
              exact ih2 nf hnf
    | functionDecl name h file mf =>
      cases mf with
      | false => exact ⟨by simpa [AST_collect_declarations] using ih1,
                        by simpa [AST_collect_declarations] using ih2⟩
      | true =>
        cases hcf : str_startsWith name ("C_") with
        | false => exact ⟨by simpa [AST_collect_declarations, hcf] using ih1,
                          by simpa [AST_collect_declarations, hcf] using ih2⟩
        | true =>
          constructor
          · intro s hs
            simp only [AST_collect_declarations, hcf, if_true] at hs
            exact ih1 s hs
          · intro nf hnf
            simp only [AST_collect_declarations, hcf, if_true] at hnf
            rcases List.mem_cons.mp hnf with hnf1 | hnf2
            · subst hnf1; exact hcf
            · exact ih2 nf hnf2
    | typedefDecl name h u mf =>
      exact ⟨by simpa [AST_collect_declarations] using ih1,
             by simpa [AST_collect_declarations] using ih2⟩
    | otherDecl mf =>
      exact ⟨by simpa [AST_collect_declarations] using ih1,
             by simpa [AST_collect_declarations] using ih2⟩

/-- Claim C8 witness: on c8Tree (no aliases), the retained struct CK_VERSION
and the collected function C_Initialize both satisfy the prefix properties;
(the non-prefixed declarations hidden and main are absent from the output,
as the exact output lists show). -/
theorem claim_C8_wit :
    (StructOut.mk ("CK_VERSION") 5 []) ∈ (AST_collect_declarations [] c8Tree).1 ∧
    str_startsWith (struct_candidate_name [] ("CK_VERSION") 5) ("CK_") = true ∧
    (("C_Initialize"), FunDecl.mk ("C_Initialize") none) ∈ (AST_collect_declarations [] c8Tree).2 ∧
    str_startsWith ("C_Initialize") ("C_") = true ∧
    (AST_collect_declarations [] c8Tree).1 = [StructOut.mk ("CK_VERSION") 5 []] ∧
    (AST_collect_declarations [] c8Tree).2 = [(("C_Initialize"), FunDecl.mk ("C_Initialize") none)] :=
  ⟨by decide,
   (claim_C8_thm [] c8Tree).1 (StructOut.mk ("CK_VERSION") 5 []) (by decide),
   by decide,
   (claim_C8_thm [] c8Tree).2 (("C_Initialize"), FunDecl.mk ("C_Initialize") none) (by decide),
   by decide, by decide⟩
